import Mathlib

/-!
Verification of the LIS3DH acquisition firmware
(src/AY1920_II_HW_05_PROJ_3.cydsn/main.c) against its specification.

The development shallowly embeds the program: machine integers are
modelled as Nat/Int with explicit reduction modulo 2^w, the two's
complement reinterpretation casts are explicit functions, the IEEE-754
arithmetic of the conversion pipeline is modelled exactly (see
`floatConvert`), and the straight-line start-up configuration code and
the body of the unbounded acquisition loop are embedded as pure
functions over an explicit bus environment.

On Int, `/` is floor division (Int.ediv) and `%` yields a non-negative
remainder for a positive modulus (Int.emod).  For a positive power of
two divisor, floor division coincides with the C arithmetic right
shift of a negative two's complement value on this target (GCC/ARM),
and `x % 256` coincides with the C expressions `x & 0xFF` and
`(uint8_t) x` applied to a signed 32-bit value.
-/

/-! ### Device constants (main.c lines 21-99) -/

/-- 7-bit I2C address of the slave device (main.c line 21). -/
def LIS3DH_DEVICE_ADDRESS : Nat := 0x18

/-- Address of the WHO AM I register (main.c line 26). -/
def LIS3DH_WHO_AM_I_REG_ADDR : Nat := 0x0F

/-- Address of the status register (main.c line 31). -/
def LIS3DH_STATUS_REG : Nat := 0x27

/-- Mask and expected value for new data on all three axes (main.c line 32). -/
def LIS3DH_STATUS_REG_NEW_VALUES : Nat := 0x07

/-- Address of control register 1 (main.c line 37). -/
def LIS3DH_CTRL_REG1 : Nat := 0x20

/-- Value setting normal or high resolution mode at 100 Hz (main.c line 47). -/
def LIS3DH_100Hz_CTRL_REG1 : Nat := 0x57

/-- Address of the temperature sensor configuration register (main.c line 51). -/
def LIS3DH_TEMP_CFG_REG : Nat := 0x1F

/-- Value disabling the temperature sensor (main.c line 54). -/
def LIS3DH_TEMP_CFG_REG_NOT_ACTIVE : Nat := 0x00

/-- Address of control register 4 (main.c line 59). -/
def LIS3DH_CTRL_REG4 : Nat := 0x23

/-- Value enabling a full-scale range of 4g in high resolution mode
(main.c line 63). -/
def LIS3DH_CTRL_REG4_4G_HIGH : Nat := 0x18

/-- Low-byte output register addresses of the three axes (main.c lines 78-80). -/
def LIS3DH_OUT_X_L : Nat := 0x28

/-- Y axis low-byte output register (main.c line 79). -/
def LIS3DH_OUT_Y_L : Nat := 0x2A

/-- Z axis low-byte output register (main.c line 80). -/
def LIS3DH_OUT_Z_L : Nat := 0x2C

/-- Sensitivity constant used for the 2g full-scale range
(main.c line 92: `#define LIS3DH_SENS_2G 4`). -/
def LIS3DH_SENS_2G : Int := 4

/-- Sensitivity constant used for the 4g full-scale range in high
resolution mode, the one the acquisition loop multiplies by
(main.c line 93: `#define LIS3DH_SENS_4G 2`). -/
def LIS3DH_SENS_4G : Int := 2

/-! ### Two's complement reinterpretations -/

/-- Reinterpret a natural number as a signed 16-bit value, as the C cast
`(int16)` does on this target: reduce modulo 2^16, then values at or
above 2^15 represent negatives. -/
def toInt16 (n : Nat) : Int :=
  if n % 65536 < 32768 then (n % 65536 : Int) else (n % 65536 : Int) - 65536

/-- Reinterpret a natural number as a signed 32-bit value (little-endian
reading of four payload bytes by the receiver). -/
def toInt32 (n : Nat) : Int :=
  if n % 4294967296 < 2147483648 then (n % 4294967296 : Int)
  else (n % 4294967296 : Int) - 4294967296

/-- Wrap-around of an Int to the int16 range, as the C assignment of an
int-typed product back into the int16 variable OutTemp does
(main.c line 363: `OutTemp = OutTemp*LIS3DH_SENS_4G`). -/
def wrapInt16 (x : Int) : Int :=
  if x % 65536 < 32768 then x % 65536 else x % 65536 - 65536

/-! ### Raw sample decoding (main.c lines 362, 384, 403)

The acquisition loop receives the two bytes of one axis in
AccelerometerData: index 0 holds the byte read from the axis low-byte
register, index 1 the byte from the following (high-byte) register,
because the burst read returns registers in ascending address order.
-/

/-- The decode expression exactly as coded, main.c line 362:
`OutTemp = (int16)((AccelerometerData[1] | (AccelerometerData[0]<<8)))>>4`.
Argument data0 is AccelerometerData[0] (the byte from the low-address
register), data1 is AccelerometerData[1] (the byte from the
high-address register).  The arithmetic right shift of the int16 value
is floor division by 16. -/
def decodeAxis (data0 data1 : Nat) : Int :=
  toInt16 (data1 ||| data0 <<< 8) / 16

/-- Modelled from the spec for comparison with `decodeAxis`: the
specification's decode formula, `sign_extend((high << 8) | low) >> 4`,
where low is the byte at the lower register address. -/
def specDecodeAxis (low high : Nat) : Int :=
  toInt16 (high <<< 8 ||| low) / 16

/-! ### IEEE-754 model of the physical conversion (main.c lines 363-365)

The code computes
  `OutTemp = OutTemp*LIS3DH_SENS_4G;`
  `OutTempHR_float = OutTemp*G_TO_ACC;`   (float32 variable)
  `OutTempHR_int = (int32) OutTempHR_float;`
with `#define G_TO_ACC 9.80665` a double constant.  The int16 value is
promoted exactly to double, the product is rounded once to double
precision (53 significant bits, round to nearest, ties to even),
the assignment to the float32 variable rounds again to single
precision (24 significant bits), and the cast to int32 truncates
toward zero.  The double value of the literal 9.80665 is exactly
5520653160719109 / 2^49, so for an integer t the exact product
t * 9.80665 is (|t| * 5520653160719109) / 2^49 up to sign, and all
roundings act on the integer numerator.  All values arising here are
normal in both formats and far below the int32 range, so mantissa
rounding is the only effect. -/

/-- Numerator of the IEEE-754 double closest to 9.80665, scaled by 2^49
(main.c line 99: `#define G_TO_ACC 9.80665`). -/
def G_TO_ACC_MANT : Nat := 5520653160719109

/-- Bit length of a value below 16: 0 for 0, otherwise position of the
highest set bit plus one. -/
def bitLen4 (n : Nat) : Nat :=
  if n = 0 then 0 else if n < 2 then 1 else if n < 4 then 2 else if n < 8 then 3 else 4

/-- Bit length of a value below 2^8. -/
def bitLen8 (n : Nat) : Nat := if n < 16 then bitLen4 n else 4 + bitLen4 (n / 16)

/-- Bit length of a value below 2^16. -/
def bitLen16 (n : Nat) : Nat := if n < 256 then bitLen8 n else 8 + bitLen8 (n / 256)

/-- Bit length of a value below 2^32. -/
def bitLen32 (n : Nat) : Nat := if n < 65536 then bitLen16 n else 16 + bitLen16 (n / 65536)

/-- Bit length of a value below 2^96 (the products rounded here stay
below 2^66). -/
def bitLen (n : Nat) : Nat :=
  if n < 18446744073709551616 then
    if n < 4294967296 then bitLen32 n else 32 + bitLen32 (n / 4294967296)
  else 64 + bitLen32 (n / 18446744073709551616)

/-- Round a natural number to the given number of significant bits,
round to nearest, ties to even: the mantissa rounding performed by both
IEEE-754 formats on the (scaled) exact product. -/
def roundPrec (prec n : Nat) : Nat :=
  let k := bitLen n
  if k ≤ prec then n
  else
    let s := k - prec
    let q := n / 2 ^ s
    let r := n % 2 ^ s
    let half := 2 ^ (s - 1)
    let q2 := if half < r then q + 1 else if r < half then q else if q % 2 = 0 then q else q + 1
    q2 * 2 ^ s

/-- The value `(int32)(float32)(t * G_TO_ACC)` computed by main.c lines
364-365 for an integer t: exact product with the double constant
9.80665, one rounding to double precision, one rounding to single
precision, truncation toward zero.  2^49 = 562949953421312 restores the
scaling of `G_TO_ACC_MANT`. -/
def floatConvert (t : Int) : Int :=
  let n := t.natAbs * G_TO_ACC_MANT
  let nf := roundPrec 24 (roundPrec 53 n)
  let mag : Nat := nf / 562949953421312
  if 0 ≤ t then (mag : Int) else -(mag : Int)

/-- The full per-axis conversion of a decoded raw sample, main.c lines
363-365: multiply by LIS3DH_SENS_4G inside int16 arithmetic, then the
float conversion. -/
def sampleToPacked (outTemp : Int) : Int :=
  floatConvert (wrapInt16 (outTemp * LIS3DH_SENS_4G))

/-- What one axis contributes to the frame, as a function of the two raw
bytes returned by its burst read. -/
def axisOutput (d0 d1 : Nat) : Int := sampleToPacked (decodeAxis d0 d1)

/-- Reference value for the conversion, stated against exact rational
arithmetic: raw_shifted * 2 * 9.80665 truncated toward zero, except
that at the nonzero multiples of 406 inside the decoder's range the
two-step IEEE rounding lands just above the next integer and the
magnitude is one larger. -/
def c2Expected (s : Int) : Int :=
  if s ≠ 0 ∧ s.natAbs % 406 = 0 then Int.tdiv (s * 2 * 980665) 100000 + Int.sign s
  else Int.tdiv (s * 2 * 980665) 100000

/-! ### The 14-byte output frame (main.c lines 320-330, 367-370)

OutArrayHR is a 14-byte array; field bI below is OutArrayHR[I].
-/

/-- The output array OutArrayHR (main.c line 322). -/
structure Frame where
  b0 : Nat
  b1 : Nat
  b2 : Nat
  b3 : Nat
  b4 : Nat
  b5 : Nat
  b6 : Nat
  b7 : Nat
  b8 : Nat
  b9 : Nat
  b10 : Nat
  b11 : Nat
  b12 : Nat
  b13 : Nat
deriving DecidableEq

/-- The bytes of the frame in order, as handed to
`UART_Debug_PutArray(OutArrayHR, 14)` (main.c line 415). -/
def frameBytes (f : Frame) : List Nat :=
  [f.b0, f.b1, f.b2, f.b3, f.b4, f.b5, f.b6, f.b7, f.b8, f.b9, f.b10, f.b11, f.b12, f.b13]

/-- Byte k/8 of the little-endian encoding of a signed 32-bit value:
`(uint8_t)((v >> k) & 0xFF)` (and for k = 24 without the mask, which the
uint8 cast makes equal), main.c lines 367-370. -/
def byteOfInt (v : Int) (k : Nat) : Nat := ((v / 2 ^ k) % 256).toNat

/-- Store a converted X sample into bytes 1-4 (main.c lines 367-370). -/
def writeAxisX (f : Frame) (v : Int) : Frame :=
  { f with b1 := byteOfInt v 0, b2 := byteOfInt v 8, b3 := byteOfInt v 16, b4 := byteOfInt v 24 }

/-- Store a converted Y sample into bytes 5-8 (main.c lines 388-391). -/
def writeAxisY (f : Frame) (v : Int) : Frame :=
  { f with b5 := byteOfInt v 0, b6 := byteOfInt v 8, b7 := byteOfInt v 16, b8 := byteOfInt v 24 }

/-- Store a converted Z sample into bytes 9-12 (main.c lines 407-410). -/
def writeAxisZ (f : Frame) (v : Int) : Frame :=
  { f with b9 := byteOfInt v 0, b10 := byteOfInt v 8, b11 := byteOfInt v 16, b12 := byteOfInt v 24 }

/-- The frame as first set up before the loop (main.c lines 329-330):
header and footer written once, the twelve payload bytes still holding
whatever the uninitialized array held, given here by j. -/
def initFrame (j : Nat → Nat) : Frame :=
  { b0 := 0xA0, b1 := j 1, b2 := j 2, b3 := j 3, b4 := j 4, b5 := j 5, b6 := j 6,
    b7 := j 7, b8 := j 8, b9 := j 9, b10 := j 10, b11 := j 11, b12 := j 12, b13 := 0xC0 }

/-- Little-endian signed 32-bit reading of the X payload bytes 1-4, per
the telemetry wire format table of the spec. -/
def unpackX (f : Frame) : Int :=
  toInt32 (f.b1 + 256 * f.b2 + 65536 * f.b3 + 16777216 * f.b4)

/-- Little-endian signed 32-bit reading of the Y payload bytes 5-8. -/
def unpackY (f : Frame) : Int :=
  toInt32 (f.b5 + 256 * f.b6 + 65536 * f.b7 + 16777216 * f.b8)

/-- Little-endian signed 32-bit reading of the Z payload bytes 9-12. -/
def unpackZ (f : Frame) : Int :=
  toInt32 (f.b9 + 256 * f.b10 + 65536 * f.b11 + 16777216 * f.b12)

/-! ### Bus transactions and the acquisition loop (main.c lines 336-421) -/

/-- A bus transaction issued by the program. -/
inductive Transaction where
  | readReg (reg : Nat)
  | writeReg (reg : Nat) (val : Nat)
  | readMulti (reg : Nat) (count : Nat)
deriving DecidableEq

/-- Outcomes the bus offers to one loop iteration: each read either
fails (none) or returns its payload; a burst read of an axis returns
the pair (byte at the low register, byte at the following register). -/
structure BusEnv where
  statusRead : Option Nat
  xRead : Option (Nat × Nat)
  yRead : Option (Nat × Nat)
  zRead : Option (Nat × Nat)

/-- The value of CTRL_Reg_start after the status check at the top of the
loop body (main.c lines 340-350): set when the status read succeeded
and all three new-data bits are set, otherwise left at its entry value. -/
def dataReadyEval (env : BusEnv) (entryCtrl : Bool) : Bool :=
  match env.statusRead with
  | some st =>
      if st &&& LIS3DH_STATUS_REG_NEW_VALUES = LIS3DH_STATUS_REG_NEW_VALUES then true
      else entryCtrl
  | none => entryCtrl

/-- Everything one iteration of the unbounded loop produces. -/
structure IterResult where
  frame : Frame
  emitted : Option (List Nat)
  issued : List Transaction
  ctrlRegStartEnd : Bool
  timerISRstartEnd : Bool

/-- One iteration of the acquisition loop, main.c lines 336-421.
entryCtrl is CTRL_Reg_start at loop entry, timerFlag the value of
Timer_ISR_start at the gate evaluation of line 354.  When the gate
`CTRL_Reg_start & Timer_ISR_start` holds, the three axes are burst
read in the order X, Y, Z; each axis whose read succeeds overwrites its
four payload bytes, a failed axis leaves its bytes untouched, and the
14-byte array is emitted.  Both flags are cleared at lines 418-419. -/
def loopIter (env : BusEnv) (entryCtrl timerFlag : Bool) (prev : Frame) : IterResult :=
  let dataReady := dataReadyEval env entryCtrl
  if dataReady && timerFlag then
    let fx := match env.xRead with
      | some d => writeAxisX prev (axisOutput d.1 d.2)
      | none => prev
    let fy := match env.yRead with
      | some d => writeAxisY fx (axisOutput d.1 d.2)
      | none => fx
    let fz := match env.zRead with
      | some d => writeAxisZ fy (axisOutput d.1 d.2)
      | none => fy
    { frame := fz
      emitted := some (frameBytes fz)
      issued := [Transaction.readReg LIS3DH_STATUS_REG,
                 Transaction.readMulti LIS3DH_OUT_X_L 2,
                 Transaction.readMulti LIS3DH_OUT_Y_L 2,
                 Transaction.readMulti LIS3DH_OUT_Z_L 2]
      ctrlRegStartEnd := false
      timerISRstartEnd := false }
  else
    { frame := prev
      emitted := none
      issued := [Transaction.readReg LIS3DH_STATUS_REG]
      ctrlRegStartEnd := false
      timerISRstartEnd := false }

/-- Frames the program can hold in OutArrayHR: the initial frame for any
junk payload, and anything one loop iteration produces from a reachable
frame. -/
inductive ReachableFrame : Frame → Prop where
  | init (j : Nat → Nat) : ReachableFrame (initFrame j)
  | step (env : BusEnv) (eC eT : Bool) (f : Frame) :
      ReachableFrame f → ReachableFrame (loopIter env eC eT f).frame

/-! ### Start-up configuration trace (main.c lines 133-307)

The straight-line configuration code is embedded as the sequence of
register transactions it issues, interleaved with the points where the
single `error` variable is examined (`if (error == NO_ERROR)`).
ctrl1Val, tmpCfgVal and ctrlReg4Val are the values held by the
variables ctrl_reg1, tmp_cfg_reg and ctrl_reg4 after their respective
read-backs; only ctrl1Val influences the sequence (line 190), the
other two are overwritten unconditionally before their writes
(lines 248, 288).
-/

/-- A startup event: a bus transaction, or an examination of the error
result of the preceding transaction. -/
inductive Event where
  | trans (t : Transaction)
  | checkResult
deriving DecidableEq

/-- The start-up register transaction sequence, main.c lines 133-307. -/
def startupTrace (ctrl1Val tmpCfgVal ctrlReg4Val : Nat) : List Event :=
  [Event.trans (Transaction.readReg LIS3DH_WHO_AM_I_REG_ADDR), Event.checkResult,
   Event.trans (Transaction.readReg LIS3DH_STATUS_REG), Event.checkResult,
   Event.trans (Transaction.readReg LIS3DH_CTRL_REG1), Event.checkResult] ++
  (if ctrl1Val ≠ LIS3DH_100Hz_CTRL_REG1 then
    [Event.trans (Transaction.writeReg LIS3DH_CTRL_REG1 LIS3DH_100Hz_CTRL_REG1),
     Event.checkResult]
  else []) ++
  [Event.trans (Transaction.readReg LIS3DH_CTRL_REG1), Event.checkResult,
   Event.trans (Transaction.readReg LIS3DH_TEMP_CFG_REG), Event.checkResult,
   Event.trans (Transaction.writeReg LIS3DH_TEMP_CFG_REG LIS3DH_TEMP_CFG_REG_NOT_ACTIVE),
   Event.trans (Transaction.readReg LIS3DH_TEMP_CFG_REG), Event.checkResult,
   Event.trans (Transaction.readReg LIS3DH_CTRL_REG4), Event.checkResult,
   Event.trans (Transaction.writeReg LIS3DH_CTRL_REG4 LIS3DH_CTRL_REG4_4G_HIGH),
   Event.trans (Transaction.readReg LIS3DH_CTRL_REG4), Event.checkResult]

/-- The events of one loop iteration seen as a transaction/check
sequence (main.c lines 340-412): the status read is checked at line
343, and inside the gate each axis burst read is checked at lines 360,
382 and 401 before the next transaction. -/
def loopEvents (gate : Bool) : List Event :=
  [Event.trans (Transaction.readReg LIS3DH_STATUS_REG), Event.checkResult] ++
  (if gate then
    [Event.trans (Transaction.readMulti LIS3DH_OUT_X_L 2), Event.checkResult,
     Event.trans (Transaction.readMulti LIS3DH_OUT_Y_L 2), Event.checkResult,
     Event.trans (Transaction.readMulti LIS3DH_OUT_Z_L 2), Event.checkResult]
  else [])

/-- Number of write transactions to the given register in a trace. -/
def writeCount (reg : Nat) (es : List Event) : Nat :=
  es.countP fun e =>
    match e with
    | Event.trans (Transaction.writeReg r _) => r == reg
    | _ => false

/-- Transactions whose result is overwritten by a later transaction
without having been examined: a pending transaction is discharged by a
checkResult and reported if another transaction arrives first. -/
def uncheckedAux (pending : Option Transaction) : List Event → List Transaction
  | [] => []
  | Event.checkResult :: rest => uncheckedAux none rest
  | Event.trans t :: rest =>
      (match pending with | some p => [p] | none => []) ++ uncheckedAux (some t) rest

/-- The transactions of a trace whose results are never examined before
being overwritten. -/
def uncheckedResults (es : List Event) : List Transaction := uncheckedAux none es

/-! ### Finite-domain checker for the conversion theorem -/

/-- Balanced check of a boolean predicate over an interval: p holds on
[a, a+n). The divide-and-conquer shape keeps the evaluation depth
logarithmic. -/
def chkRange (p : Nat → Bool) : Nat → Nat → Nat → Bool
  | 0, a, n => if n = 0 then true else if n = 1 then p a else false
  | fuel + 1, a, n =>
    if n ≤ 1 then (if n = 1 then p a else true)
    else chkRange p fuel a (n / 2) && chkRange p fuel (a + n / 2) (n - n / 2)

/-- The per-point check for the conversion theorem. -/
def c2Holds (k : Nat) : Bool := sampleToPacked (k : Int) == c2Expected (k : Int)

/-- Bus responses of the end-to-end scenario: status register 0x07, X
bytes (0x00, 0x40), Y bytes (0x00, 0x00), Z bytes (0xF0, 0xBF). -/
def c6Env : BusEnv :=
  { statusRead := some 0x07
    xRead := some (0x00, 0x40)
    yRead := some (0x00, 0x00)
    zRead := some (0xF0, 0xBF) }

/-- Bus responses of the single-axis-failure witness: status register
0x07, X and Z reads succeeding with zero bytes, Y read failing. -/
def c5Env : BusEnv :=
  { statusRead := some 0x07
    xRead := some (0x00, 0x00)
    yRead := none
    zRead := some (0x00, 0x00) }

/-- The frame the claim expects for the scenario: X bytes 32 9C 00 00,
Y zero, Z the little-endian encoding of -1025 * 4 * 9.80665 truncated,
which is -40207 = 0xFFFF62F1. -/
def c6Claimed : List Nat :=
  [0xA0, 0x32, 0x9C, 0x00, 0x00, 0x00, 0x00, 0x00, 0x00, 0xF1, 0x62, 0xFF, 0xFF, 0xC0]

/-- The frame the code actually emits for the scenario: X decodes to 4
and converts to 78 = 0x4E, Y to 0, Z decodes to -245 and converts to
-4805 = 0xFFFFED3B little-endian. -/
def c6Actual : List Nat :=
  [0xA0, 0x4E, 0x00, 0x00, 0x00, 0x00, 0x00, 0x00, 0x00, 0x3B, 0xED, 0xFF, 0xFF, 0xC0]

/-! ### Helper lemmas -/

/-- Soundness of the balanced interval checker. -/
theorem chkRange_sound (p : Nat → Bool) :
    ∀ fuel a n, chkRange p fuel a n = true → ∀ j, j < n → p (a + j) = true := by
  intro fuel
  induction fuel with
  | zero =>
    intro a n h j hj
    unfold chkRange at h
    split at h
    · omega
    · split at h
      · have hj0 : j = 0 := by omega
        subst hj0
        simpa using h
      · simp at h
  | succ f ih =>
    intro a n h j hj
    unfold chkRange at h
    split at h
    · split at h
      · have hj0 : j = 0 := by omega
        subst hj0
        simpa using h
      · omega
    · rw [Bool.and_eq_true] at h
      by_cases hc : j < n / 2
      · exact ih a (n / 2) h.1 j hc
      · have hr := ih (a + n / 2) (n - n / 2) h.2 (j - n / 2) (by omega)
        have e : a + n / 2 + (j - n / 2) = a + j := by omega
        rwa [e] at hr

/-- Little-endian packing of an int32 followed by signed little-endian
unpacking is the identity on the int32 range. -/
theorem toInt32_byteOfInt (v : Int) (h1 : -2147483648 ≤ v) (h2 : v < 2147483648) :
    toInt32 (byteOfInt v 0 + 256 * byteOfInt v 8 + 65536 * byteOfInt v 16 +
      16777216 * byteOfInt v 24) = v := by
  unfold toInt32 byteOfInt
  norm_num
  split <;> omega

/-- The int16 wrap is the identity on the int16 range. -/
theorem wrapInt16_of_bounds (x : Int) (h1 : -32768 ≤ x) (h2 : x < 32768) :
    wrapInt16 x = x := by
  unfold wrapInt16
  split <;> omega

/-- The modelled float conversion is an odd function. -/
theorem floatConvert_neg (t : Int) : floatConvert (-t) = -floatConvert t := by
  by_cases h0 : t = 0
  · subst h0
    decide
  · by_cases hp : 0 ≤ t
    · have hn : ¬ (0 ≤ -t) := by omega
      simp [floatConvert, Int.natAbs_neg, hp, hn]
    · have hn : 0 ≤ -t := by omega
      simp [floatConvert, Int.natAbs_neg, hp, hn]

/-- The reference conversion is an odd function. -/
theorem c2Expected_neg (s : Int) : c2Expected (-s) = -c2Expected s := by
  unfold c2Expected
  by_cases h0 : s = 0
  · subst h0
    decide
  · have e1 : -s * 2 * 980665 = -(s * 2 * 980665) := by ring
    by_cases hm : s.natAbs % 406 = 0
    · simp [h0, hm, Int.natAbs_neg, e1, Int.neg_tdiv, Int.sign_neg, neg_eq_zero]
      ring
    · simp [h0, hm, Int.natAbs_neg, e1, Int.neg_tdiv, neg_eq_zero]

/-- On the decoder's output range the sensitivity multiplication does
not wrap, so the per-axis conversion is the float conversion of twice
the decoded sample. -/
theorem sampleToPacked_eq_floatConvert (s : Int) (h1 : -16384 ≤ s) (h2 : s ≤ 16383) :
    sampleToPacked s = floatConvert (s * 2) := by
  unfold sampleToPacked LIS3DH_SENS_4G
  rw [wrapInt16_of_bounds (s * 2) (by omega) (by omega)]

/-- A loop iteration never changes the header byte. -/
theorem loopIter_frame_b0 (env : BusEnv) (eC eT : Bool) (f : Frame) :
    (loopIter env eC eT f).frame.b0 = f.b0 := by
  unfold loopIter
  by_cases h : dataReadyEval env eC && eT <;>
    cases hx : env.xRead <;> cases hy : env.yRead <;> cases hz : env.zRead <;>
      simp [h, hx, hy, hz, writeAxisX, writeAxisY, writeAxisZ]

/-- A loop iteration never changes the footer byte. -/
theorem loopIter_frame_b13 (env : BusEnv) (eC eT : Bool) (f : Frame) :
    (loopIter env eC eT f).frame.b13 = f.b13 := by
  unfold loopIter
  by_cases h : dataReadyEval env eC && eT <;>
    cases hx : env.xRead <;> cases hy : env.yRead <;> cases hz : env.zRead <;>
      simp [h, hx, hy, hz, writeAxisX, writeAxisY, writeAxisZ]

/-- Every reachable frame carries the constant header and footer. -/
theorem reachable_header_footer (f : Frame) (h : ReachableFrame f) :
    f.b0 = 0xA0 ∧ f.b13 = 0xC0 := by
  induction h with
  | init j => exact ⟨rfl, rfl⟩
  | step env eC eT g hg ih =>
    rw [loopIter_frame_b0, loopIter_frame_b13]
    exact ih

/-- When the gate fires, the emitted list is the bytes of the final
frame; otherwise nothing is emitted. -/
theorem loopIter_emitted (env : BusEnv) (eC eT : Bool) (f : Frame) :
    (loopIter env eC eT f).emitted = none ∨
      (loopIter env eC eT f).emitted = some (frameBytes (loopIter env eC eT f).frame) := by
  unfold loopIter
  by_cases h : dataReadyEval env eC && eT <;> simp [h]

/-! ### Claim theorems -/

/-- Claim C1: at the raw byte pair low = 0x00, high = 0x40 the decode
expression coded at main.c line 362 yields 4, while the claimed formula
sign_extend((high << 8) | low) >> 4 yields 1024: the code combines the
bytes the wrong way round, putting the low-address byte into the high
half. -/
theorem c1_decode_divergence :
    decodeAxis 0x00 0x40 = 4 ∧ specDecodeAxis 0x00 0x40 = 1024 ∧
      decodeAxis 0x00 0x40 ≠ specDecodeAxis 0x00 0x40 := by
  refine ⟨by decide, by decide, by decide⟩

/-- Claim C2, counterexample: the decoded sample 1024 converts to 20084,
not to the claimed 40178, because the sensitivity constant multiplied in
is LIS3DH_SENS_4G = 2, not 4. -/
theorem c2_counterexample :
    sampleToPacked 1024 = 20084 ∧ (20084 : Int) ≠ 40178 ∧
      LIS3DH_SENS_4G = 2 := by
  refine ⟨by decide, by decide, rfl⟩

/-- Claim C3: in every loop iteration the sample-read-and-emit block
runs exactly when both flags are true at the gate evaluation of main.c
line 354 (the data-ready flag being the value CTRL_Reg_start holds
there), and at the end of the iteration both flags are false whether or
not the block ran. -/
theorem c3_gate_iff_both_flags (env : BusEnv) (eC eT : Bool) (prev : Frame) :
    ((loopIter env eC eT prev).emitted.isSome = (dataReadyEval env eC && eT)) ∧
      (loopIter env eC eT prev).ctrlRegStartEnd = false ∧
      (loopIter env eC eT prev).timerISRstartEnd = false := by
  unfold loopIter
  by_cases h : dataReadyEval env eC && eT <;> simp [h]

/-- Claim C10: when the status register read fails, CTRL_Reg_start keeps
its entry value false, so even with the timer flag set no axis burst
read is issued, no frame is emitted, and the frame is unchanged. -/
theorem c10_status_read_failure (env : BusEnv) (eC eT : Bool) (prev : Frame)
    (hs : env.statusRead = none) (hc : eC = false) :
    dataReadyEval env eC = false ∧
      (loopIter env eC eT prev).emitted = none ∧
      (loopIter env eC eT prev).issued = [Transaction.readReg LIS3DH_STATUS_REG] ∧
      (loopIter env eC eT prev).frame = prev := by
  have hd : dataReadyEval env eC = false := by
    simp [dataReadyEval, hs, hc]
  refine ⟨hd, ?_, ?_, ?_⟩ <;> simp [loopIter, hd]

/-- Claim C10, witness: a concrete iteration with a failed status read,
timer flag set and all axis reads available still issues only the
status read and emits nothing. -/
theorem c10_witness :
    (BusEnv.mk none (some (1, 2)) (some (3, 4)) (some (5, 6))).statusRead = none ∧
      false = false ∧
      (dataReadyEval (BusEnv.mk none (some (1, 2)) (some (3, 4)) (some (5, 6))) false = false ∧
        (loopIter (BusEnv.mk none (some (1, 2)) (some (3, 4)) (some (5, 6))) false true
            (initFrame fun _ => 0)).emitted = none ∧
        (loopIter (BusEnv.mk none (some (1, 2)) (some (3, 4)) (some (5, 6))) false true
            (initFrame fun _ => 0)).issued = [Transaction.readReg LIS3DH_STATUS_REG] ∧
        (loopIter (BusEnv.mk none (some (1, 2)) (some (3, 4)) (some (5, 6))) false true
            (initFrame fun _ => 0)).frame = initFrame fun _ => 0) :=
  ⟨rfl, rfl, c10_status_read_failure _ false true (initFrame fun _ => 0) rfl rfl⟩

/-- Claim C4: from any reachable frame, a loop iteration leaves the
header and footer bytes untouched (they are written once at main.c
lines 329-330 and never recomputed), anything emitted is exactly the
14 bytes of the final frame, and that frame still carries 0xA0 at
byte 0 and 0xC0 at byte 13. -/
theorem c4_frame_invariant (f : Frame) (env : BusEnv) (eC eT : Bool)
    (h : ReachableFrame f) :
    (loopIter env eC eT f).frame.b0 = f.b0 ∧
      (loopIter env eC eT f).frame.b13 = f.b13 ∧
      ((loopIter env eC eT f).emitted = none ∨
        (loopIter env eC eT f).emitted = some (frameBytes (loopIter env eC eT f).frame)) ∧
      (frameBytes (loopIter env eC eT f).frame).length = 14 ∧
      (frameBytes (loopIter env eC eT f).frame).head? = some 0xA0 ∧
      (frameBytes (loopIter env eC eT f).frame).getLast? = some 0xC0 := by
  obtain ⟨h0, h13⟩ := reachable_header_footer f h
  have e0 := loopIter_frame_b0 env eC eT f
  have e13 := loopIter_frame_b13 env eC eT f
  refine ⟨e0, e13, loopIter_emitted env eC eT f, by simp [frameBytes], ?_, ?_⟩
  · simp [frameBytes, e0, h0]
  · simp [frameBytes, e13, h13]

/-- Claim C4, witness: instantiated at the initial frame with zero
payload junk and a gate-false iteration. -/
theorem c4_witness :
    ReachableFrame (initFrame fun _ => 0) ∧
      ((loopIter (BusEnv.mk none none none none) false false
          (initFrame fun _ => 0)).frame.b0 = (initFrame fun _ => 0).b0 ∧
        (loopIter (BusEnv.mk none none none none) false false
            (initFrame fun _ => 0)).frame.b13 = (initFrame fun _ => 0).b13 ∧
        ((loopIter (BusEnv.mk none none none none) false false
            (initFrame fun _ => 0)).emitted = none ∨
          (loopIter (BusEnv.mk none none none none) false false
              (initFrame fun _ => 0)).emitted =
            some (frameBytes (loopIter (BusEnv.mk none none none none) false false
              (initFrame fun _ => 0)).frame)) ∧
        (frameBytes (loopIter (BusEnv.mk none none none none) false false
            (initFrame fun _ => 0)).frame).length = 14 ∧
        (frameBytes (loopIter (BusEnv.mk none none none none) false false
            (initFrame fun _ => 0)).frame).head? = some 0xA0 ∧
        (frameBytes (loopIter (BusEnv.mk none none none none) false false
            (initFrame fun _ => 0)).frame).getLast? = some 0xC0) :=
  ⟨ReachableFrame.init _,
    c4_frame_invariant (initFrame fun _ => 0) (BusEnv.mk none none none none) false false
      (ReachableFrame.init _)⟩

/-- Claim C5: in a gate-true cycle in which exactly one axis burst read
fails, the four frame bytes of the failed axis keep their previous
values, the other two axes' bytes are rewritten from the fresh reads,
and the full 14-byte frame is still emitted. -/
theorem c5_single_axis_failure (env : BusEnv) (eC eT : Bool) (prev : Frame)
    (hd : dataReadyEval env eC = true) (ht : eT = true) :
    (∀ p q, env.xRead = none → env.yRead = some p → env.zRead = some q →
      (loopIter env eC eT prev).frame.b1 = prev.b1 ∧
        (loopIter env eC eT prev).frame.b2 = prev.b2 ∧
        (loopIter env eC eT prev).frame.b3 = prev.b3 ∧
        (loopIter env eC eT prev).frame.b4 = prev.b4 ∧
        (loopIter env eC eT prev).frame.b5 = byteOfInt (axisOutput p.1 p.2) 0 ∧
        (loopIter env eC eT prev).frame.b6 = byteOfInt (axisOutput p.1 p.2) 8 ∧
        (loopIter env eC eT prev).frame.b7 = byteOfInt (axisOutput p.1 p.2) 16 ∧
        (loopIter env eC eT prev).frame.b8 = byteOfInt (axisOutput p.1 p.2) 24 ∧
        (loopIter env eC eT prev).frame.b9 = byteOfInt (axisOutput q.1 q.2) 0 ∧
        (loopIter env eC eT prev).frame.b10 = byteOfInt (axisOutput q.1 q.2) 8 ∧
        (loopIter env eC eT prev).frame.b11 = byteOfInt (axisOutput q.1 q.2) 16 ∧
        (loopIter env eC eT prev).frame.b12 = byteOfInt (axisOutput q.1 q.2) 24 ∧
        (loopIter env eC eT prev).emitted =
          some (frameBytes (loopIter env eC eT prev).frame) ∧
        (frameBytes (loopIter env eC eT prev).frame).length = 14) ∧
    (∀ p q, env.xRead = some p → env.yRead = none → env.zRead = some q →
      (loopIter env eC eT prev).frame.b5 = prev.b5 ∧
        (loopIter env eC eT prev).frame.b6 = prev.b6 ∧
        (loopIter env eC eT prev).frame.b7 = prev.b7 ∧
        (loopIter env eC eT prev).frame.b8 = prev.b8 ∧
        (loopIter env eC eT prev).frame.b1 = byteOfInt (axisOutput p.1 p.2) 0 ∧
        (loopIter env eC eT prev).frame.b2 = byteOfInt (axisOutput p.1 p.2) 8 ∧
        (loopIter env eC eT prev).frame.b3 = byteOfInt (axisOutput p.1 p.2) 16 ∧
        (loopIter env eC eT prev).frame.b4 = byteOfInt (axisOutput p.1 p.2) 24 ∧
        (loopIter env eC eT prev).frame.b9 = byteOfInt (axisOutput q.1 q.2) 0 ∧
        (loopIter env eC eT prev).frame.b10 = byteOfInt (axisOutput q.1 q.2) 8 ∧
        (loopIter env eC eT prev).frame.b11 = byteOfInt (axisOutput q.1 q.2) 16 ∧
        (loopIter env eC eT prev).frame.b12 = byteOfInt (axisOutput q.1 q.2) 24 ∧
        (loopIter env eC eT prev).emitted =
          some (frameBytes (loopIter env eC eT prev).frame) ∧
        (frameBytes (loopIter env eC eT prev).frame).length = 14) ∧
    (∀ p q, env.xRead = some p → env.yRead = some q → env.zRead = none →
      (loopIter env eC eT prev).frame.b9 = prev.b9 ∧
        (loopIter env eC eT prev).frame.b10 = prev.b10 ∧
        (loopIter env eC eT prev).frame.b11 = prev.b11 ∧
        (loopIter env eC eT prev).frame.b12 = prev.b12 ∧
        (loopIter env eC eT prev).frame.b1 = byteOfInt (axisOutput p.1 p.2) 0 ∧
        (loopIter env eC eT prev).frame.b2 = byteOfInt (axisOutput p.1 p.2) 8 ∧
        (loopIter env eC eT prev).frame.b3 = byteOfInt (axisOutput p.1 p.2) 16 ∧
        (loopIter env eC eT prev).frame.b4 = byteOfInt (axisOutput p.1 p.2) 24 ∧
        (loopIter env eC eT prev).frame.b5 = byteOfInt (axisOutput q.1 q.2) 0 ∧
        (loopIter env eC eT prev).frame.b6 = byteOfInt (axisOutput q.1 q.2) 8 ∧
        (loopIter env eC eT prev).frame.b7 = byteOfInt (axisOutput q.1 q.2) 16 ∧
        (loopIter env eC eT prev).frame.b8 = byteOfInt (axisOutput q.1 q.2) 24 ∧
        (loopIter env eC eT prev).emitted =
          some (frameBytes (loopIter env eC eT prev).frame) ∧
        (frameBytes (loopIter env eC eT prev).frame).length = 14) := by
  subst ht
  refine ⟨?_, ?_, ?_⟩ <;>
    intro p q h1 h2 h3 <;>
      simp [loopIter, hd, h1, h2, h3, writeAxisX, writeAxisY, writeAxisZ, frameBytes]

/-- Claim C5, witness: gate-true cycle with only the Y read failing, at
the full conclusion of the middle case of the theorem. -/
theorem c5_witness :
    dataReadyEval c5Env false = true ∧
      ((loopIter c5Env false true (initFrame fun _ => 7)).frame.b5 =
          (initFrame fun _ => 7).b5 ∧
        (loopIter c5Env false true (initFrame fun _ => 7)).frame.b6 =
          (initFrame fun _ => 7).b6 ∧
        (loopIter c5Env false true (initFrame fun _ => 7)).frame.b7 =
          (initFrame fun _ => 7).b7 ∧
        (loopIter c5Env false true (initFrame fun _ => 7)).frame.b8 =
          (initFrame fun _ => 7).b8 ∧
        (loopIter c5Env false true (initFrame fun _ => 7)).frame.b1 =
          byteOfInt (axisOutput 0 0) 0 ∧
        (loopIter c5Env false true (initFrame fun _ => 7)).frame.b2 =
          byteOfInt (axisOutput 0 0) 8 ∧
        (loopIter c5Env false true (initFrame fun _ => 7)).frame.b3 =
          byteOfInt (axisOutput 0 0) 16 ∧
        (loopIter c5Env false true (initFrame fun _ => 7)).frame.b4 =
          byteOfInt (axisOutput 0 0) 24 ∧
        (loopIter c5Env false true (initFrame fun _ => 7)).frame.b9 =
          byteOfInt (axisOutput 0 0) 0 ∧
        (loopIter c5Env false true (initFrame fun _ => 7)).frame.b10 =
          byteOfInt (axisOutput 0 0) 8 ∧
        (loopIter c5Env false true (initFrame fun _ => 7)).frame.b11 =
          byteOfInt (axisOutput 0 0) 16 ∧
        (loopIter c5Env false true (initFrame fun _ => 7)).frame.b12 =
          byteOfInt (axisOutput 0 0) 24 ∧
        (loopIter c5Env false true (initFrame fun _ => 7)).emitted =
          some (frameBytes (loopIter c5Env false true (initFrame fun _ => 7)).frame) ∧
        (frameBytes (loopIter c5Env false true (initFrame fun _ => 7)).frame).length = 14) :=
  ⟨by decide,
    (c5_single_axis_failure c5Env false true (initFrame fun _ => 7)
      (by decide) rfl).2.1 (0, 0) (0, 0) rfl rfl rfl⟩

/-- Claim C6, counterexample: for the scenario bytes X = (0x00, 0x40),
Y = (0x00, 0x00), Z = (0xF0, 0xBF) with status 0x07 and the timer flag
set, the emitted frame is not the claimed one: the code emits
`c6Actual`, whose X bytes encode 78, not the claimed 0x32 0x9C. -/
theorem c6_counterexample :
    (loopIter c6Env false true (initFrame fun _ => 0)).emitted ≠ some c6Claimed ∧
      c6Actual ≠ c6Claimed := by
  refine ⟨by decide, by decide⟩

/-- Claim C6, amended: for the scenario bytes the code emits the frame
A0 4E 00 00 00 00 00 00 00 3B ED FF FF C0: X decodes per the coded
byte order to 4 and converts with sensitivity 2 to 78 = 0x4E, Y to 0,
and Z decodes to -245 and converts to -4805, encoded little-endian. -/
theorem c6_scenario_frame :
    (loopIter c6Env false true (initFrame fun _ => 0)).emitted = some c6Actual := by
  decide

/-- Claim C7, counterexample: in the start-up sequence with the control
register 4 read-back already equal to the desired value 0x18, the code
still issues one write to control register 4 (main.c lines 288-292
write unconditionally), where the claim demands zero writes. -/
theorem c7_counterexample :
    writeCount LIS3DH_CTRL_REG4 (startupTrace 0x57 0x00 0x18) = 1 ∧ (1 : Nat) ≠ 0 := by
  refine ⟨by decide, by decide⟩

/-- Claim C7, amended: only the control register 1 step follows the
read-before-write policy, writing exactly when the read-back value
differs from 0x57 (main.c lines 190-207); the temperature configuration
and control register 4 steps each issue exactly one write regardless of
their read-back values (main.c lines 248-252 and 288-292). -/
theorem c7_write_policy (a b c : Nat) :
    writeCount LIS3DH_CTRL_REG1 (startupTrace a b c) =
        (if a = LIS3DH_100Hz_CTRL_REG1 then 0 else 1) ∧
      writeCount LIS3DH_TEMP_CFG_REG (startupTrace a b c) = 1 ∧
      writeCount LIS3DH_CTRL_REG4 (startupTrace a b c) = 1 := by
  by_cases h : a = LIS3DH_100Hz_CTRL_REG1 <;>
    simp [startupTrace, writeCount, h] <;> decide

/-- Claim C8, counterexample: the start-up trace contains transaction
results that are overwritten unexamined: the writes to the temperature
configuration register and to control register 4 are each followed
directly by another transaction that overwrites `error` before any
check (main.c lines 250-254 and 290-294). -/
theorem c8_counterexample :
    uncheckedResults (startupTrace 0x57 0x00 0x18) ≠ [] := by
  decide

/-- Claim C8, amended: for every start-up read-back valuation exactly
two transaction results go unexamined, the temperature-configuration
write and the control-register-4 write; every other start-up
transaction, and every transaction of a loop iteration (gate true or
false), is checked before the next transaction is issued. -/
theorem c8_check_policy (a b c : Nat) (g : Bool) :
    uncheckedResults (startupTrace a b c) =
        [Transaction.writeReg LIS3DH_TEMP_CFG_REG LIS3DH_TEMP_CFG_REG_NOT_ACTIVE,
         Transaction.writeReg LIS3DH_CTRL_REG4 LIS3DH_CTRL_REG4_4G_HIGH] ∧
      uncheckedResults (loopEvents g) = [] := by
  constructor
  · by_cases h : a = LIS3DH_100Hz_CTRL_REG1 <;>
      simp [startupTrace, uncheckedResults, uncheckedAux, h] <;> decide
  · cases g <;> decide

/-- Claim C9: packing three int32 values into the payload offsets 1-4,
5-8 and 9-12 least-significant byte first, then reading those offsets
back as little-endian signed 32-bit integers, recovers the values
exactly. -/
theorem c9_pack_unpack_roundtrip (f : Frame) (x y z : Int)
    (hx1 : -2147483648 ≤ x) (hx2 : x < 2147483648)
    (hy1 : -2147483648 ≤ y) (hy2 : y < 2147483648)
    (hz1 : -2147483648 ≤ z) (hz2 : z < 2147483648) :
    unpackX (writeAxisZ (writeAxisY (writeAxisX f x) y) z) = x ∧
      unpackY (writeAxisZ (writeAxisY (writeAxisX f x) y) z) = y ∧
      unpackZ (writeAxisZ (writeAxisY (writeAxisX f x) y) z) = z := by
  refine ⟨?_, ?_, ?_⟩
  · show toInt32 (byteOfInt x 0 + 256 * byteOfInt x 8 + 65536 * byteOfInt x 16 +
      16777216 * byteOfInt x 24) = x
    exact toInt32_byteOfInt x hx1 hx2
  · show toInt32 (byteOfInt y 0 + 256 * byteOfInt y 8 + 65536 * byteOfInt y 16 +
      16777216 * byteOfInt y 24) = y
    exact toInt32_byteOfInt y hy1 hy2
  · show toInt32 (byteOfInt z 0 + 256 * byteOfInt z 8 + 65536 * byteOfInt z 16 +
      16777216 * byteOfInt z 24) = z
    exact toInt32_byteOfInt z hz1 hz2

/-- Claim C9, witness: the round trip at the concrete triple
(20084, -1, -2147483648) on the zero-junk initial frame. -/
theorem c9_witness :
    -2147483648 ≤ (20084 : Int) ∧ (20084 : Int) < 2147483648 ∧
      -2147483648 ≤ (-1 : Int) ∧ (-1 : Int) < 2147483648 ∧
      -2147483648 ≤ (-2147483648 : Int) ∧ (-2147483648 : Int) < 2147483648 ∧
      (unpackX (writeAxisZ (writeAxisY (writeAxisX (initFrame fun _ => 0) 20084) (-1))
          (-2147483648)) = 20084 ∧
        unpackY (writeAxisZ (writeAxisY (writeAxisX (initFrame fun _ => 0) 20084) (-1))
          (-2147483648)) = -1 ∧
        unpackZ (writeAxisZ (writeAxisY (writeAxisX (initFrame fun _ => 0) 20084) (-1))
          (-2147483648)) = -2147483648) :=
  ⟨by decide, by decide, by decide, by decide, by decide, by decide,
    c9_pack_unpack_roundtrip (initFrame fun _ => 0) 20084 (-1) (-2147483648)
      (by decide) (by decide) (by decide) (by decide) (by decide) (by decide)⟩

set_option maxHeartbeats 4000000 in
/-- The conversion check holds on the non-negative half of the decoder
range (the negative half follows by oddness). -/
theorem c2check : chkRange c2Holds 12 0 2049 = true := by decide

/-- Claim C2, amended: for every decoded raw sample in the decoder's
range, the physical value written into the frame is the two-step
IEEE-754 evaluation of raw_shifted * 2 * 9.80665 truncated toward
zero — the sensitivity constant for the 4g high-resolution
configuration being LIS3DH_SENS_4G = 2 mg/digit; this agrees with the
exact truncation of raw_shifted * 2 * 9.80665 everywhere except at the
nonzero multiples of 406, where the float result is one unit larger in
magnitude.  In particular raw_shifted = 1024 yields 20084. -/
theorem c2_sens2_conversion (s : Int) (h1 : -2048 ≤ s) (h2 : s ≤ 2047) :
    sampleToPacked s = c2Expected s := by
  have pos : ∀ k : Nat, k ≤ 2048 → sampleToPacked (k : Int) = c2Expected (k : Int) := by
    intro k hk
    have h := chkRange_sound c2Holds 12 0 2049 c2check k (by omega)
    simpa [c2Holds] using h
  rcases le_or_lt 0 s with hs | hs
  · have e : ((s.toNat : Nat) : Int) = s := Int.toNat_of_nonneg hs
    rw [← e]
    exact pos s.toNat (by omega)
  · have e : (((-s).toNat : Nat) : Int) = -s := Int.toNat_of_nonneg (by omega)
    have hp := pos (-s).toNat (by omega)
    rw [e] at hp
    have l1 : sampleToPacked (-s) = floatConvert (-s * 2) :=
      sampleToPacked_eq_floatConvert (-s) (by omega) (by omega)
    have l2 : sampleToPacked s = floatConvert (s * 2) :=
      sampleToPacked_eq_floatConvert s (by omega) (by omega)
    have l3 : floatConvert (-s * 2) = -floatConvert (s * 2) := by
      rw [show (-s * 2 : Int) = -(s * 2) by ring]
      exact floatConvert_neg (s * 2)
    have l4 : c2Expected (-s) = -c2Expected s := c2Expected_neg s
    omega

/-- Claim C2, witness: the amended conversion at the sample 1024, whose
value is 20084. -/
theorem c2_witness :
    -2048 ≤ (1024 : Int) ∧ (1024 : Int) ≤ 2047 ∧
      sampleToPacked 1024 = c2Expected 1024 ∧ c2Expected 1024 = 20084 :=
  ⟨by decide, by decide, c2_sens2_conversion 1024 (by decide) (by decide), by decide⟩
